import Mathlib

/-!
# Verification of the RPC session manager (`src/rpc/manager.ts`)

A shallow embedding of the `SocketManager` class and its collaborators.
Inbound websocket frames are modelled by `Message`; text frames carry an
already-parsed `InPayload` (malformed JSON propagates uncaught in the source
and is outside the model).  Every observable action of the manager — socket
writes, shared-store mutations, the token-store write, the HTTP token
exchange, and the diagnostic log — is recorded as an `Effect`; `onMessage`
returns the updated manager state together with the list of effects it
performed, in program order.

The nonce generator (`uuid.v4()` in the source) is modelled as a counter
producing pairwise-distinct fresh values, one per call.
-/

namespace Overlayed

/-- Modelled from the spec: the `RPCCommand` string-enum lives in
`src/rpc/command.ts`, which is not under `src/`; the dispatch table of the spec
names the command tags, reproduced here as distinct string constants. -/
def RPCCommand.AUTHORIZE : String := "AUTHORIZE"

def RPCCommand.AUTHENTICATE : String := "AUTHENTICATE"

def RPCCommand.GET_SELECTED_VOICE_CHANNEL : String := "GET_SELECTED_VOICE_CHANNEL"

def RPCCommand.SUBSCRIBE : String := "SUBSCRIBE"

def RPCCommand.UNSUBSCRIBE : String := "UNSUBSCRIBE"

def RPCCommand.GET_CHANNEL : String := "GET_CHANNEL"

/-- Modelled from the spec: the `RPCEvent` string-enum lives in
`src/rpc/event.ts`, which is not under `src/`; the dispatch table of the spec and
its per-channel event list name the event tags, reproduced here as distinct
string constants. -/
def RPCEvent.READY : String := "READY"

def RPCEvent.SPEAKING_START : String := "SPEAKING_START"

def RPCEvent.SPEAKING_STOP : String := "SPEAKING_STOP"

def RPCEvent.VOICE_STATE_CREATE : String := "VOICE_STATE_CREATE"

def RPCEvent.VOICE_STATE_DELETE : String := "VOICE_STATE_DELETE"

def RPCEvent.VOICE_CHANNEL_SELECT : String := "VOICE_CHANNEL_SELECT"

/-- The constant `SUBSCRIBABLE_EVENTS` from the source, with
`VOICE_STATE_DELETE` listed twice exactly as in `manager.ts` lines 29–35. -/
def SUBSCRIBABLE_EVENTS : List String :=
  [RPCEvent.SPEAKING_START,
   RPCEvent.SPEAKING_STOP,
   RPCEvent.VOICE_STATE_CREATE,
   RPCEvent.VOICE_STATE_DELETE,
   RPCEvent.VOICE_STATE_DELETE]

def STREAM_KIT_APP_ID : String := "207646673902501888"

def STREAMKIT_URL : String := "https://streamkit.discord.com"

/-- A Discord user object as it appears in inbound payload data
(`payload.data.user`). Only the `id` field is read by the manager. -/
structure UserObj where
  id : String
deriving DecidableEq, Repr

/-- One entry of `payload.data.voice_states`: a voice state carrying the
user it belongs to. -/
structure VoiceState where
  user : UserObj
deriving DecidableEq, Repr

/-- The `data` member of an inbound payload.  In the source it is untyped
JSON; the fields each dispatch branch reads are modelled as optional fields
(absent = `none`). `voice_states` defaults to the empty list when absent. -/
structure InData where
  code : Option String := none
  id : Option String := none
  voice_states : List VoiceState := []
  user : Option UserObj := none
  user_id : Option String := none
  channel_id : Option String := none
deriving DecidableEq, Repr

/-- An inbound payload `{ cmd?, evt?, data }` parsed from a text frame. -/
structure InPayload where
  cmd : Option String := none
  evt : Option String := none
  data : InData := {}
deriving DecidableEq, Repr

/-- The `args` object of an outbound payload; the union of the argument
shapes the manager sends (absent = `none`, `scopes` absent = `[]`). -/
structure OutArgs where
  client_id : Option String := none
  scopes : List String := []
  access_token : Option String := none
  channel_id : Option String := none
deriving DecidableEq, Repr

/-- The outbound `DiscordPayload` interface of the source: `{ cmd?, args?,
evt?, nonce? }`.  `send` serializes it with a fresh nonce (modelled as a
`Nat` drawn from the counter). -/
structure DiscordPayload where
  cmd : Option String := none
  args : Option OutArgs := none
  evt : Option String := none
  nonce : Option Nat := none
deriving DecidableEq, Repr

/-- An inbound websocket frame (`Message` of the tauri websocket API).
Only `text` frames are processed; all other frame types are ignored by
`onMessage`. -/
inductive Message where
  | text (payload : InPayload)
  | binary (data : List Nat)
  | ping (data : List Nat)
  | pong (data : List Nat)
  | close
deriving DecidableEq, Repr

def Message.isText : Message → Bool
  | Message.text _ => true
  | _ => false

/-- One observable action of the manager, in program order: a serialized
socket write, a shared-store mutation, the token-store write, the HTTP
token-exchange POST, or the diagnostic `console.log`. -/
inductive Effect where
  | sent (p : DiscordPayload)
  | setUsers (l : List VoiceState)
  | setCurrentChannel (c : Option String)
  | setMe (u : Option UserObj)
  | setTalking (uid : Option String) (speaking : Bool)
  | removeUser (uid : Option String)
  | addUser (d : InData)
  | setToken (t : String)
  | httpPost (url : String) (code : Option String)
  | log (p : InPayload)
deriving DecidableEq, Repr

/-- The `TokenStore` class: a thin wrapper around the `discord_access_token`
entry of `window.localStorage`, modelled as the (nullable) stored string. -/
structure TokenStore where
  store : Option String := none
deriving DecidableEq, Repr

/-- Getter `accessToken`: reads the cached token, `none` if never set. -/
def TokenStore.accessToken (t : TokenStore) : Option String := t.store

/-- Method `setAccessToken(token)`: persists the token, overwriting any
prior value. -/
def TokenStore.setAccessToken (t : TokenStore) (token : String) : TokenStore :=
  { t with store := some token }

/-- The mutable state of the `SocketManager` instance: the
`currentChannelId` field (initialized `null`, line 53), the token store,
and the nonce counter modelling the fresh-value source behind `uuid.v4()`. -/
structure ManagerState where
  currentChannelId : Option String := none
  tokenStore : TokenStore := {}
  nonceCtr : Nat := 0
deriving DecidableEq, Repr

/-- One draw from the fresh-nonce source: returns the fresh value and the
advanced generator state. -/
def genNonce (ctr : Nat) : Nat × Nat := (ctr, ctr + 1)

/-- Method `send(payload)`: serializes the payload to the socket, attaching
a freshly generated nonce (the object spread in the source overwrites any
nonce already present in the payload). Returns the serialized payload and
the advanced nonce counter. -/
def send (p : DiscordPayload) (ctr : Nat) : DiscordPayload × Nat :=
  let (n, ctr') := genNonce ctr
  ({ p with nonce := some n }, ctr')

/-- Method `authenticate()` (source lines 78–86): sends an AUTHORIZE
command with the streamkit client id and the `rpc` scope. -/
def authenticate (ctr : Nat) : DiscordPayload × Nat :=
  send
    { args := some { client_id := some STREAM_KIT_APP_ID, scopes := ["rpc"] },
      cmd := some RPCCommand.AUTHORIZE }
    ctr

/-- Method `login(accessToken)` (source lines 88–93): sends an AUTHENTICATE
command carrying the token. -/
def login (accessToken : String) (ctr : Nat) : DiscordPayload × Nat :=
  send
    { cmd := some RPCCommand.AUTHENTICATE,
      args := some { access_token := some accessToken } }
    ctr

/-- Method `requestUserChannel()` (source lines 198–202): sends a bare
GET_SELECTED_VOICE_CHANNEL command. -/
def requestUserChannel (ctr : Nat) : DiscordPayload × Nat :=
  send { cmd := some RPCCommand.GET_SELECTED_VOICE_CHANNEL } ctr

/-- The per-event body of the map inside `channelEvents`: for each event
name it builds the payload literal — whose own `uuid.v4()` call draws a
fresh value — and passes it to `send`, which draws another fresh value and
overwrites the first. -/
def channelEventsGo (cmd : String) (channelId : Option String) :
    List String → Nat → List DiscordPayload × Nat
  | [], ctr => ([], ctr)
  | ev :: rest, ctr =>
    let (n1, c1) := genNonce ctr
    let p : DiscordPayload :=
      { cmd := some cmd,
        args := some { channel_id := channelId },
        evt := some ev,
        nonce := some n1 }
    let (sp, c2) := send p c1
    let (sps, c3) := channelEventsGo cmd channelId rest c2
    (sp :: sps, c3)

/-- Method `channelEvents(cmd, channelId)` (source lines 223–235): one
subscribe/unsubscribe command per entry of `SUBSCRIBABLE_EVENTS`, scoped to
the channel. Returns the serialized payloads in order. -/
def channelEvents (cmd : String) (channelId : Option String) (ctr : Nat) :
    List DiscordPayload × Nat :=
  channelEventsGo cmd channelId SUBSCRIBABLE_EVENTS ctr

/-- Branch `payload.evt === RPCEvent.READY` (lines 107–114): if the cached
access token is truthy (present and non-empty, the JS `if (acessToken)`
check) log in with it, else request authorization. -/
def readyBranch (p : InPayload) (st : ManagerState) : List Effect × ManagerState :=
  if p.evt = some RPCEvent.READY then
    match st.tokenStore.accessToken with
    | some tok =>
      if tok = "" then
        let r := authenticate st.nonceCtr
        ([Effect.sent r.1], { st with nonceCtr := r.2 })
      else
        let r := login tok st.nonceCtr
        ([Effect.sent r.1], { st with nonceCtr := r.2 })
    | none =>
      let r := authenticate st.nonceCtr
      ([Effect.sent r.1], { st with nonceCtr := r.2 })
  else ([], st)

/-- Branch `payload.cmd === RPCCommand.AUTHORIZE` (lines 117–129): POST the
one-time code to the streamkit token endpoint, persist the returned access
token, and log in with it.  here `exchange` models the response of the environment: the
`access_token` field of the HTTP response for the posted code. -/
def authorizeBranch (exchange : Option String → String) (p : InPayload)
    (st : ManagerState) : List Effect × ManagerState :=
  if p.cmd = some RPCCommand.AUTHORIZE then
    let code := p.data.code
    let token := exchange code
    let r := login token st.nonceCtr
    ([Effect.httpPost (STREAMKIT_URL ++ "/overlay/token") code,
      Effect.setToken token,
      Effect.sent r.1],
     { st with tokenStore := st.tokenStore.setAccessToken token, nonceCtr := r.2 })
  else ([], st)

/-- Branch `payload.cmd === RPCCommand.GET_SELECTED_VOICE_CHANNEL`
(lines 132–140): subscribe to the events of the channel, replace the user set
with the returned voice states, and set the current channel. -/
def selectedVoiceChannelBranch (p : InPayload) (st : ManagerState) :
    List Effect × ManagerState :=
  if p.cmd = some RPCCommand.GET_SELECTED_VOICE_CHANNEL then
    let r := channelEvents RPCCommand.SUBSCRIBE p.data.id st.nonceCtr
    (r.1.map Effect.sent ++
      [Effect.setUsers p.data.voice_states,
       Effect.setCurrentChannel p.data.id],
     { st with nonceCtr := r.2 })
  else ([], st)

/-- Branch `payload?.cmd === RPCCommand.AUTHENTICATE` (lines 143–154):
request the current voice channel, subscribe to VOICE_CHANNEL_SELECT, and
set the current user. -/
def authenticateBranch (p : InPayload) (st : ManagerState) :
    List Effect × ManagerState :=
  if p.cmd = some RPCCommand.AUTHENTICATE then
    let r1 := requestUserChannel st.nonceCtr
    let r2 :=
      send
        { cmd := some RPCCommand.SUBSCRIBE,
          evt := some RPCEvent.VOICE_CHANNEL_SELECT }
        r1.2
    ([Effect.sent r1.1, Effect.sent r2.1, Effect.setMe p.data.user],
     { st with nonceCtr := r2.2 })
  else ([], st)

/-- Branch `payload.evt === SPEAKING_START || payload.evt === SPEAKING_STOP`
(lines 156–162): `isSpeaking = evt !== SPEAKING_START`, then
`setTalking(user_id, !isSpeaking)`. -/
def speakingBranch (p : InPayload) (st : ManagerState) :
    List Effect × ManagerState :=
  if p.evt = some RPCEvent.SPEAKING_START ∨ p.evt = some RPCEvent.SPEAKING_STOP then
    let isSpeaking : Bool := p.evt ≠ some RPCEvent.SPEAKING_START
    ([Effect.setTalking p.data.user_id (!isSpeaking)], st)
  else ([], st)

/-- Branch `payload.evt === RPCEvent.VOICE_STATE_DELETE` (lines 164–166):
remove the user from membership (`payload.data.user.id`). -/
def voiceStateDeleteBranch (p : InPayload) (st : ManagerState) :
    List Effect × ManagerState :=
  if p.evt = some RPCEvent.VOICE_STATE_DELETE then
    ([Effect.removeUser (p.data.user.map UserObj.id)], st)
  else ([], st)

/-- Branch `payload.evt === RPCEvent.VOICE_STATE_CREATE` (lines 168–170):
add the membership entry of the user (`payload.data`). -/
def voiceStateCreateBranch (p : InPayload) (st : ManagerState) :
    List Effect × ManagerState :=
  if p.evt = some RPCEvent.VOICE_STATE_CREATE then
    ([Effect.addUser p.data], st)
  else ([], st)

/-- Branch `payload.cmd === RPCCommand.GET_CHANNEL` (lines 173–175):
re-request the current voice channel. -/
def getChannelBranch (p : InPayload) (st : ManagerState) :
    List Effect × ManagerState :=
  if p.cmd = some RPCCommand.GET_CHANNEL then
    let r := requestUserChannel st.nonceCtr
    ([Effect.sent r.1], { st with nonceCtr := r.2 })
  else ([], st)

/-- Branch `payload.evt === RPCEvent.VOICE_CHANNEL_SELECT` (lines 178–191):
re-request the current voice channel, set the current channel id, and — if
`payload.data?.channel_id` is truthy (present and non-empty) — request the
full data of the channel. -/
def channelSelectBranch (p : InPayload) (st : ManagerState) :
    List Effect × ManagerState :=
  if p.evt = some RPCEvent.VOICE_CHANNEL_SELECT then
    let r1 := requestUserChannel st.nonceCtr
    match p.data.channel_id with
    | some cid =>
      if cid = "" then
        ([Effect.sent r1.1, Effect.setCurrentChannel (some cid)],
         { st with nonceCtr := r1.2 })
      else
        let r2 :=
          send
            { cmd := some RPCCommand.GET_CHANNEL,
              args := some { channel_id := some cid } }
            r1.2
        ([Effect.sent r1.1, Effect.setCurrentChannel (some cid), Effect.sent r2.1],
         { st with nonceCtr := r2.2 })
    | none =>
      ([Effect.sent r1.1, Effect.setCurrentChannel none],
       { st with nonceCtr := r1.2 })
  else ([], st)

/-- Final statement (lines 193–195): log the payload unless its `cmd` is
SUBSCRIBE or AUTHENTICATE (`![SUBSCRIBE, AUTHENTICATE].includes(payload.cmd)`;
an absent `cmd` is not in the list, so such payloads are logged). -/
def logBranch (p : InPayload) (st : ManagerState) : List Effect × ManagerState :=
  if p.cmd = some RPCCommand.SUBSCRIBE ∨ p.cmd = some RPCCommand.AUTHENTICATE then
    ([], st)
  else ([Effect.log p], st)

/-- The body of `onMessage` after the JSON parse (lines 104–195): each
dispatch branch is an independent predicate check, executed in source
order; the effect lists concatenate in program order. -/
def onPayload (exchange : Option String → String) (st : ManagerState)
    (p : InPayload) : ManagerState × List Effect :=
  let r1 := readyBranch p st
  let r2 := authorizeBranch exchange p r1.2
  let r3 := selectedVoiceChannelBranch p r2.2
  let r4 := authenticateBranch p r3.2
  let r5 := speakingBranch p r4.2
  let r6 := voiceStateDeleteBranch p r5.2
  let r7 := voiceStateCreateBranch p r6.2
  let r8 := getChannelBranch p r7.2
  let r9 := channelSelectBranch p r8.2
  let r10 := logBranch p r9.2
  (r10.2,
   r1.1 ++ r2.1 ++ r3.1 ++ r4.1 ++ r5.1 ++ r6.1 ++ r7.1 ++ r8.1 ++ r9.1 ++ r10.1)

/-- `onMessage(event)` (lines 99–196): non-text frames return immediately
(lines 100–102) with no effect; text frames are dispatched on their parsed
payload. -/
def onMessage (exchange : Option String → String) (st : ManagerState)
    (m : Message) : ManagerState × List Effect :=
  match m with
  | Message.text p => onPayload exchange st p
  | _ => (st, [])

/-- Processing a sequence of inbound frames in arrival order, concatenating
the effects (the single registered listener of the session, line 72). -/
def run (exchange : Option String → String) (st : ManagerState) :
    List Message → ManagerState × List Effect
  | [] => (st, [])
  | m :: ms =>
    let (st1, e1) := onMessage exchange st m
    let (st2, e2) := run exchange st1 ms
    (st2, e1 ++ e2)

/-- The manager state right after `init()` (lines 60–73): `currentChannelId`
is `null` from its field initializer, the token store wraps whatever
`localStorage` currently holds, and no nonce has been drawn. -/
def initState (cachedToken : Option String) : ManagerState :=
  { currentChannelId := none,
    tokenStore := { store := cachedToken },
    nonceCtr := 0 }

/-- The serialized payloads written to the socket among a list of effects,
in order. -/
def sentPayloads (effs : List Effect) : List DiscordPayload :=
  effs.filterMap fun e =>
    match e with
    | Effect.sent p => some p
    | _ => none

/-- The nonces carried by the serialized socket writes, in order. -/
def sentNonces (effs : List Effect) : List Nat :=
  (sentPayloads effs).filterMap DiscordPayload.nonce

/-- How many serialized socket writes among `effs` carry the command `c`. -/
def countCmd (effs : List Effect) (c : String) : Nat :=
  (sentPayloads effs).countP fun p => p.cmd == some c

/-- The shared-store mutations among a list of effects, in order. -/
def storeEffects (effs : List Effect) : List Effect :=
  effs.filter fun e =>
    match e with
    | Effect.setUsers _ => true
    | Effect.setCurrentChannel _ => true
    | Effect.setMe _ => true
    | Effect.setTalking _ _ => true
    | Effect.removeUser _ => true
    | Effect.addUser _ => true
    | _ => false

/-- How many diagnostic-log effects `effs` contains. -/
def countLog (effs : List Effect) : Nat :=
  effs.countP fun e =>
    match e with
    | Effect.log _ => true
    | _ => false

/-- Modelled from the spec: the shared UI store (`../store`, not under
`src/`).  Per §3 of the spec it holds the current authenticated user, the
current channel id, and a membership set of users keyed by user id, each
with a speaking boolean (kept here as the voice-state entries plus a
speaking predicate). -/
structure AppStoreState where
  me : Option UserObj := none
  currentChannel : Option String := none
  users : List VoiceState := []
  speaking : String → Bool := fun _ => false

/-- Modelled from the spec: the meaning of each store mutation, per the
spec — `setUsers` replaces the membership set, `setCurrentChannel` /
`setMe` set their field, `setTalking` sets the speaking flag of the given
user, `removeUser` removes the user, `addUser` adds or replaces the entry
of the user.  Non-store effects leave the store unchanged. -/
def applyEffect (s : AppStoreState) : Effect → AppStoreState
  | Effect.setUsers l => { s with users := l }
  | Effect.setCurrentChannel c => { s with currentChannel := c }
  | Effect.setMe u => { s with me := u }
  | Effect.setTalking uid b =>
    { s with speaking := fun x => if some x = uid then b else s.speaking x }
  | Effect.removeUser uid =>
    { s with users := s.users.filter fun v => some v.user.id ≠ uid }
  | Effect.addUser d =>
    match d.user with
    | some u =>
      { s with users := (s.users.filter fun v => v.user.id ≠ u.id) ++ [⟨u⟩] }
    | none => s
  | _ => s

/-- Folding a list of effects over the modelled store, in program order. -/
def applyEffects (s : AppStoreState) (effs : List Effect) : AppStoreState :=
  List.foldl applyEffect s effs

theorem readyBranch_ne (p : InPayload) (st : ManagerState)
    (h : ¬ p.evt = some RPCEvent.READY) : readyBranch p st = ([], st) := by
  simp [readyBranch, h]

theorem authorizeBranch_ne (exchange : Option String → String) (p : InPayload)
    (st : ManagerState) (h : ¬ p.cmd = some RPCCommand.AUTHORIZE) :
    authorizeBranch exchange p st = ([], st) := by
  simp [authorizeBranch, h]

theorem selectedVoiceChannelBranch_ne (p : InPayload) (st : ManagerState)
    (h : ¬ p.cmd = some RPCCommand.GET_SELECTED_VOICE_CHANNEL) :
    selectedVoiceChannelBranch p st = ([], st) := by
  simp [selectedVoiceChannelBranch, h]

theorem authenticateBranch_ne (p : InPayload) (st : ManagerState)
    (h : ¬ p.cmd = some RPCCommand.AUTHENTICATE) :
    authenticateBranch p st = ([], st) := by
  simp [authenticateBranch, h]

theorem speakingBranch_ne (p : InPayload) (st : ManagerState)
    (h1 : ¬ p.evt = some RPCEvent.SPEAKING_START)
    (h2 : ¬ p.evt = some RPCEvent.SPEAKING_STOP) :
    speakingBranch p st = ([], st) := by
  simp [speakingBranch, h1, h2]

theorem voiceStateDeleteBranch_ne (p : InPayload) (st : ManagerState)
    (h : ¬ p.evt = some RPCEvent.VOICE_STATE_DELETE) :
    voiceStateDeleteBranch p st = ([], st) := by
  simp [voiceStateDeleteBranch, h]

theorem voiceStateCreateBranch_ne (p : InPayload) (st : ManagerState)
    (h : ¬ p.evt = some RPCEvent.VOICE_STATE_CREATE) :
    voiceStateCreateBranch p st = ([], st) := by
  simp [voiceStateCreateBranch, h]

theorem getChannelBranch_ne (p : InPayload) (st : ManagerState)
    (h : ¬ p.cmd = some RPCCommand.GET_CHANNEL) :
    getChannelBranch p st = ([], st) := by
  simp [getChannelBranch, h]

theorem channelSelectBranch_ne (p : InPayload) (st : ManagerState)
    (h : ¬ p.evt = some RPCEvent.VOICE_CHANNEL_SELECT) :
    channelSelectBranch p st = ([], st) := by
  simp [channelSelectBranch, h]

/-- C1: on an inbound READY event (and no `cmd` tag), a cached access token
in the token store yields exactly one AUTHENTICATE command carrying that
token and no AUTHORIZE command, while an absent cached token yields exactly
one AUTHORIZE command carrying the client id and the `rpc` scope and no
AUTHENTICATE command.  A present token is one the source's truthiness check
accepts, i.e. a non-empty string. -/
theorem ready_event_auth_choice (exchange : Option String → String)
    (st : ManagerState) (p : InPayload)
    (hevt : p.evt = some RPCEvent.READY) (hcmd : p.cmd = none) :
    (∀ tok, st.tokenStore.accessToken = some tok → tok ≠ "" →
      sentPayloads (onPayload exchange st p).2 =
        [{ cmd := some RPCCommand.AUTHENTICATE,
           args := some { access_token := some tok },
           nonce := some st.nonceCtr }] ∧
      countCmd (onPayload exchange st p).2 RPCCommand.AUTHENTICATE = 1 ∧
      countCmd (onPayload exchange st p).2 RPCCommand.AUTHORIZE = 0) ∧
    (st.tokenStore.accessToken = none →
      sentPayloads (onPayload exchange st p).2 =
        [{ cmd := some RPCCommand.AUTHORIZE,
           args := some { client_id := some STREAM_KIT_APP_ID,
                          scopes := ["rpc"] },
           nonce := some st.nonceCtr }] ∧
      countCmd (onPayload exchange st p).2 RPCCommand.AUTHORIZE = 1 ∧
      countCmd (onPayload exchange st p).2 RPCCommand.AUTHENTICATE = 0) := by
  constructor
  · intro tok htok hne
    simp [onPayload, readyBranch, authorizeBranch_ne, selectedVoiceChannelBranch_ne,
      authenticateBranch_ne, speakingBranch_ne, voiceStateDeleteBranch_ne,
      voiceStateCreateBranch_ne, getChannelBranch_ne, channelSelectBranch_ne,
      logBranch, hevt, hcmd, htok, hne, login, authenticate, send, genNonce,
      sentPayloads, countCmd, RPCEvent.READY, RPCEvent.SPEAKING_START,
      RPCEvent.SPEAKING_STOP, RPCEvent.VOICE_STATE_CREATE,
      RPCEvent.VOICE_STATE_DELETE, RPCEvent.VOICE_CHANNEL_SELECT,
      RPCCommand.AUTHENTICATE, RPCCommand.AUTHORIZE]
  · intro htok
    simp [onPayload, readyBranch, authorizeBranch_ne, selectedVoiceChannelBranch_ne,
      authenticateBranch_ne, speakingBranch_ne, voiceStateDeleteBranch_ne,
      voiceStateCreateBranch_ne, getChannelBranch_ne, channelSelectBranch_ne,
      logBranch, hevt, hcmd, htok, login, authenticate, send, genNonce,
      sentPayloads, countCmd, RPCEvent.READY, RPCEvent.SPEAKING_START,
      RPCEvent.SPEAKING_STOP, RPCEvent.VOICE_STATE_CREATE,
      RPCEvent.VOICE_STATE_DELETE, RPCEvent.VOICE_CHANNEL_SELECT,
      RPCCommand.AUTHENTICATE, RPCCommand.AUTHORIZE]

/-- Witness for C1 at a concrete state and READY payload. -/
theorem ready_event_auth_choice_w :
    sentPayloads
      (onPayload (fun _ => "t")
        { currentChannelId := none, tokenStore := { store := some "tok0" },
          nonceCtr := 0 }
        { evt := some RPCEvent.READY }).2 =
      [{ cmd := some RPCCommand.AUTHENTICATE,
         args := some { access_token := some "tok0" },
         nonce := some 0 }] := by
  have h := ready_event_auth_choice (fun _ => "t")
    { currentChannelId := none, tokenStore := { store := some "tok0" },
      nonceCtr := 0 }
    { evt := some RPCEvent.READY } rfl rfl
  exact (h.1 "tok0" rfl (by decide)).1

/-- The serialized subscribe/unsubscribe command for one channel event, as
produced by `channelEvents` for channel `C`, event `ev` and nonce `n`. -/
def subscribePayload (cmd : String) (C : String) (ev : String) (n : Nat) :
    DiscordPayload :=
  { cmd := some cmd,
    args := some { channel_id := some C },
    evt := some ev,
    nonce := some n }

/-- C2: on a GET_SELECTED_VOICE_CHANNEL response carrying channel id `C`
and voice-state list `L`, exactly one subscribe command scoped to `C` is
sent per entry of `SUBSCRIBABLE_EVENTS` — speaking-start, speaking-stop,
voice-state-create, voice-state-delete, voice-state-delete, the last one
duplicated — the membership set of the store is replaced with `L`, and the
current channel of the store is set to `C`. -/
theorem get_selected_voice_channel_dispatch (exchange : Option String → String)
    (st : ManagerState) (p : InPayload) (C : String) (L : List VoiceState)
    (hcmd : p.cmd = some RPCCommand.GET_SELECTED_VOICE_CHANNEL)
    (hevt : p.evt = none) (hid : p.data.id = some C)
    (hvs : p.data.voice_states = L) :
    sentPayloads (onPayload exchange st p).2 =
      [subscribePayload RPCCommand.SUBSCRIBE C RPCEvent.SPEAKING_START (st.nonceCtr + 1),
       subscribePayload RPCCommand.SUBSCRIBE C RPCEvent.SPEAKING_STOP (st.nonceCtr + 3),
       subscribePayload RPCCommand.SUBSCRIBE C RPCEvent.VOICE_STATE_CREATE (st.nonceCtr + 5),
       subscribePayload RPCCommand.SUBSCRIBE C RPCEvent.VOICE_STATE_DELETE (st.nonceCtr + 7),
       subscribePayload RPCCommand.SUBSCRIBE C RPCEvent.VOICE_STATE_DELETE (st.nonceCtr + 9)] ∧
    storeEffects (onPayload exchange st p).2 =
      [Effect.setUsers L, Effect.setCurrentChannel (some C)] ∧
    ∀ s0 : AppStoreState,
      (applyEffects s0 (onPayload exchange st p).2).users = L ∧
      (applyEffects s0 (onPayload exchange st p).2).currentChannel = some C := by
  refine ⟨?_, ?_, ?_⟩ <;>
    simp [onPayload, readyBranch_ne, authorizeBranch_ne, selectedVoiceChannelBranch,
      authenticateBranch_ne, speakingBranch_ne, voiceStateDeleteBranch_ne,
      voiceStateCreateBranch_ne, getChannelBranch_ne, channelSelectBranch_ne,
      logBranch, hcmd, hevt, hid, hvs, channelEvents, channelEventsGo,
      SUBSCRIBABLE_EVENTS, send, genNonce, subscribePayload, sentPayloads,
      storeEffects, applyEffects, applyEffect, Nat.add_assoc,
      RPCEvent.READY, RPCEvent.SPEAKING_START, RPCEvent.SPEAKING_STOP,
      RPCEvent.VOICE_STATE_CREATE, RPCEvent.VOICE_STATE_DELETE,
      RPCEvent.VOICE_CHANNEL_SELECT, RPCCommand.AUTHORIZE,
      RPCCommand.AUTHENTICATE, RPCCommand.GET_SELECTED_VOICE_CHANNEL,
      RPCCommand.SUBSCRIBE, RPCCommand.GET_CHANNEL]

/-- Witness for C2 at a concrete GET_SELECTED_VOICE_CHANNEL payload. -/
theorem get_selected_voice_channel_dispatch_w :
    storeEffects
      (onPayload (fun _ => "t") (initState none)
        { cmd := some RPCCommand.GET_SELECTED_VOICE_CHANNEL,
          data := { id := some "c1", voice_states := [⟨⟨"u1"⟩⟩] } }).2 =
      [Effect.setUsers [⟨⟨"u1"⟩⟩], Effect.setCurrentChannel (some "c1")] ∧
    (applyEffects {}
      (onPayload (fun _ => "t") (initState none)
        { cmd := some RPCCommand.GET_SELECTED_VOICE_CHANNEL,
          data := { id := some "c1", voice_states := [⟨⟨"u1"⟩⟩] } }).2).users =
      [⟨⟨"u1"⟩⟩] := by
  have h := get_selected_voice_channel_dispatch (fun _ => "t") (initState none)
    { cmd := some RPCCommand.GET_SELECTED_VOICE_CHANNEL,
      data := { id := some "c1", voice_states := [⟨⟨"u1"⟩⟩] } }
    "c1" [⟨⟨"u1"⟩⟩] rfl rfl rfl rfl
  exact ⟨h.2.1, (h.2.2 {}).1⟩

/-- C3: on an AUTHORIZE response carrying a one-time code, the code is
posted once to the fixed streamkit token endpoint, the access token the
exchange returns is persisted into the token store, and exactly one
AUTHENTICATE command is sent carrying that same token (the full effect
list, in program order, plus the diagnostic log of the payload). -/
theorem authorize_code_exchange (exchange : Option String → String)
    (st : ManagerState) (p : InPayload) (c : String)
    (hcmd : p.cmd = some RPCCommand.AUTHORIZE) (hevt : p.evt = none)
    (hcode : p.data.code = some c) :
    (onPayload exchange st p).2 =
      [Effect.httpPost "https://streamkit.discord.com/overlay/token" (some c),
       Effect.setToken (exchange (some c)),
       Effect.sent
         { cmd := some RPCCommand.AUTHENTICATE,
           args := some { access_token := some (exchange (some c)) },
           nonce := some st.nonceCtr },
       Effect.log p] ∧
    (onPayload exchange st p).1.tokenStore.accessToken = some (exchange (some c)) ∧
    countCmd (onPayload exchange st p).2 RPCCommand.AUTHENTICATE = 1 := by
  refine ⟨?_, ?_, ?_⟩ <;>
    simp [onPayload, readyBranch_ne, authorizeBranch, selectedVoiceChannelBranch_ne,
      authenticateBranch_ne, speakingBranch_ne, voiceStateDeleteBranch_ne,
      voiceStateCreateBranch_ne, getChannelBranch_ne, channelSelectBranch_ne,
      logBranch, hcmd, hevt, hcode, login, send, genNonce, sentPayloads,
      countCmd, TokenStore.setAccessToken, TokenStore.accessToken,
      STREAMKIT_URL, RPCEvent.READY, RPCEvent.SPEAKING_START,
      RPCEvent.SPEAKING_STOP, RPCEvent.VOICE_STATE_CREATE,
      RPCEvent.VOICE_STATE_DELETE, RPCEvent.VOICE_CHANNEL_SELECT,
      RPCCommand.AUTHORIZE, RPCCommand.AUTHENTICATE,
      RPCCommand.GET_SELECTED_VOICE_CHANNEL, RPCCommand.SUBSCRIBE,
      RPCCommand.GET_CHANNEL]

/-- Witness for C3 at a concrete AUTHORIZE payload and exchange oracle. -/
theorem authorize_code_exchange_w :
    (onPayload (fun _ => "fresh-token") (initState none)
      { cmd := some RPCCommand.AUTHORIZE, data := { code := some "code1" } }).1.tokenStore.accessToken =
      some "fresh-token" := by
  have h := authorize_code_exchange (fun _ => "fresh-token") (initState none)
    { cmd := some RPCCommand.AUTHORIZE, data := { code := some "code1" } }
    "code1" rfl rfl rfl
  exact h.2.1

/-- C4: on an AUTHENTICATE acknowledgement, exactly one
GET_SELECTED_VOICE_CHANNEL command and exactly one SUBSCRIBE command for
the VOICE_CHANNEL_SELECT event are sent, and the current-user field of the
store is set to the user of the payload data. -/
theorem authenticate_ack_dispatch (exchange : Option String → String)
    (st : ManagerState) (p : InPayload)
    (hcmd : p.cmd = some RPCCommand.AUTHENTICATE) (hevt : p.evt = none) :
    (onPayload exchange st p).2 =
      [Effect.sent
         { cmd := some RPCCommand.GET_SELECTED_VOICE_CHANNEL,
           nonce := some st.nonceCtr },
       Effect.sent
         { cmd := some RPCCommand.SUBSCRIBE,
           evt := some RPCEvent.VOICE_CHANNEL_SELECT,
           nonce := some (st.nonceCtr + 1) },
       Effect.setMe p.data.user] ∧
    countCmd (onPayload exchange st p).2 RPCCommand.GET_SELECTED_VOICE_CHANNEL = 1 ∧
    countCmd (onPayload exchange st p).2 RPCCommand.SUBSCRIBE = 1 ∧
    ∀ s0 : AppStoreState,
      (applyEffects s0 (onPayload exchange st p).2).me = p.data.user := by
  refine ⟨?_, ?_, ?_, ?_⟩ <;>
    simp [onPayload, readyBranch_ne, authorizeBranch_ne, selectedVoiceChannelBranch_ne,
      authenticateBranch, speakingBranch_ne, voiceStateDeleteBranch_ne,
      voiceStateCreateBranch_ne, getChannelBranch_ne, channelSelectBranch_ne,
      logBranch, hcmd, hevt, requestUserChannel, send, genNonce, sentPayloads,
      countCmd, applyEffects, applyEffect, RPCEvent.READY,
      RPCEvent.SPEAKING_START, RPCEvent.SPEAKING_STOP,
      RPCEvent.VOICE_STATE_CREATE, RPCEvent.VOICE_STATE_DELETE,
      RPCEvent.VOICE_CHANNEL_SELECT, RPCCommand.AUTHORIZE,
      RPCCommand.AUTHENTICATE, RPCCommand.GET_SELECTED_VOICE_CHANNEL,
      RPCCommand.SUBSCRIBE, RPCCommand.GET_CHANNEL]

/-- Witness for C4 at a concrete AUTHENTICATE acknowledgement. -/
theorem authenticate_ack_dispatch_w :
    countCmd
      (onPayload (fun _ => "t") (initState none)
        { cmd := some RPCCommand.AUTHENTICATE,
          data := { user := some ⟨"me"⟩ } }).2
      RPCCommand.GET_SELECTED_VOICE_CHANNEL = 1 ∧
    (applyEffects {}
      (onPayload (fun _ => "t") (initState none)
        { cmd := some RPCCommand.AUTHENTICATE,
          data := { user := some ⟨"me"⟩ } }).2).me = some ⟨"me"⟩ := by
  have h := authenticate_ack_dispatch (fun _ => "t") (initState none)
    { cmd := some RPCCommand.AUTHENTICATE, data := { user := some ⟨"me"⟩ } }
    rfl rfl
  exact ⟨h.2.1, h.2.2.2 {}⟩

/-- C6: a SPEAKING_START event for user `U` makes the speaking branch set
the speaking flag of `U` to true, a SPEAKING_STOP event sets it to false,
and in either case that `setTalking` call is the only store mutation the
dispatch performs. -/
theorem speaking_events_set_flag (exchange : Option String → String)
    (st : ManagerState) (p : InPayload) (U : String)
    (hcmd : p.cmd = none) (huid : p.data.user_id = some U) :
    (p.evt = some RPCEvent.SPEAKING_START →
      storeEffects (onPayload exchange st p).2 = [Effect.setTalking (some U) true] ∧
      ∀ s0 : AppStoreState,
        (applyEffects s0 (onPayload exchange st p).2).speaking U = true) ∧
    (p.evt = some RPCEvent.SPEAKING_STOP →
      storeEffects (onPayload exchange st p).2 = [Effect.setTalking (some U) false] ∧
      ∀ s0 : AppStoreState,
        (applyEffects s0 (onPayload exchange st p).2).speaking U = false) := by
  constructor <;> intro hevt <;> refine ⟨?_, ?_⟩ <;>
    simp [onPayload, readyBranch_ne, authorizeBranch_ne, selectedVoiceChannelBranch_ne,
      authenticateBranch_ne, speakingBranch, voiceStateDeleteBranch_ne,
      voiceStateCreateBranch_ne, getChannelBranch_ne, channelSelectBranch_ne,
      logBranch, hcmd, hevt, huid, storeEffects, applyEffects, applyEffect,
      RPCEvent.READY, RPCEvent.SPEAKING_START, RPCEvent.SPEAKING_STOP,
      RPCEvent.VOICE_STATE_CREATE, RPCEvent.VOICE_STATE_DELETE,
      RPCEvent.VOICE_CHANNEL_SELECT, RPCCommand.SUBSCRIBE,
      RPCCommand.AUTHENTICATE]

/-- Witness for C6 at a concrete SPEAKING_START payload. -/
theorem speaking_events_set_flag_w :
    storeEffects
      (onPayload (fun _ => "t") (initState none)
        { evt := some RPCEvent.SPEAKING_START,
          data := { user_id := some "u1" } }).2 =
      [Effect.setTalking (some "u1") true] ∧
    (applyEffects {}
      (onPayload (fun _ => "t") (initState none)
        { evt := some RPCEvent.SPEAKING_START,
          data := { user_id := some "u1" } }).2).speaking "u1" = true := by
  have h := speaking_events_set_flag (fun _ => "t") (initState none)
    { evt := some RPCEvent.SPEAKING_START, data := { user_id := some "u1" } }
    "u1" rfl rfl
  exact ⟨(h.1 rfl).1, (h.1 rfl).2 {}⟩

/-- C7: a VOICE_CHANNEL_SELECT event whose `channel_id` is `"42"` sets the
current channel of the store to `"42"`, sends exactly one
GET_SELECTED_VOICE_CHANNEL command and exactly one GET_CHANNEL command with
`channel_id = "42"`; when `channel_id` is null or absent, no GET_CHANNEL
command is sent. -/
theorem voice_channel_select_dispatch (exchange : Option String → String)
    (st : ManagerState) (p : InPayload)
    (hevt : p.evt = some RPCEvent.VOICE_CHANNEL_SELECT) (hcmd : p.cmd = none) :
    (p.data.channel_id = some "42" →
      sentPayloads (onPayload exchange st p).2 =
        [{ cmd := some RPCCommand.GET_SELECTED_VOICE_CHANNEL,
           nonce := some st.nonceCtr },
         { cmd := some RPCCommand.GET_CHANNEL,
           args := some { channel_id := some "42" },
           nonce := some (st.nonceCtr + 1) }] ∧
      countCmd (onPayload exchange st p).2 RPCCommand.GET_SELECTED_VOICE_CHANNEL = 1 ∧
      countCmd (onPayload exchange st p).2 RPCCommand.GET_CHANNEL = 1 ∧
      ∀ s0 : AppStoreState,
        (applyEffects s0 (onPayload exchange st p).2).currentChannel = some "42") ∧
    (p.data.channel_id = none →
      countCmd (onPayload exchange st p).2 RPCCommand.GET_CHANNEL = 0) := by
  constructor <;> intro hcid
  · refine ⟨?_, ?_, ?_, ?_⟩ <;>
      simp [onPayload, readyBranch_ne, authorizeBranch_ne, selectedVoiceChannelBranch_ne,
        authenticateBranch_ne, speakingBranch_ne, voiceStateDeleteBranch_ne,
        voiceStateCreateBranch_ne, getChannelBranch_ne, channelSelectBranch,
        logBranch, hcmd, hevt, hcid, requestUserChannel, send, genNonce,
        sentPayloads, countCmd, applyEffects, applyEffect, RPCEvent.READY,
        RPCEvent.SPEAKING_START, RPCEvent.SPEAKING_STOP,
        RPCEvent.VOICE_STATE_CREATE, RPCEvent.VOICE_STATE_DELETE,
        RPCEvent.VOICE_CHANNEL_SELECT, RPCCommand.AUTHORIZE,
        RPCCommand.AUTHENTICATE, RPCCommand.GET_SELECTED_VOICE_CHANNEL,
        RPCCommand.SUBSCRIBE, RPCCommand.GET_CHANNEL]
  · simp [onPayload, readyBranch_ne, authorizeBranch_ne, selectedVoiceChannelBranch_ne,
      authenticateBranch_ne, speakingBranch_ne, voiceStateDeleteBranch_ne,
      voiceStateCreateBranch_ne, getChannelBranch_ne, channelSelectBranch,
      logBranch, hcmd, hevt, hcid, requestUserChannel, send, genNonce,
      sentPayloads, countCmd, RPCEvent.READY, RPCEvent.SPEAKING_START,
      RPCEvent.SPEAKING_STOP, RPCEvent.VOICE_STATE_CREATE,
      RPCEvent.VOICE_STATE_DELETE, RPCEvent.VOICE_CHANNEL_SELECT,
      RPCCommand.AUTHORIZE, RPCCommand.AUTHENTICATE,
      RPCCommand.GET_SELECTED_VOICE_CHANNEL, RPCCommand.SUBSCRIBE,
      RPCCommand.GET_CHANNEL]

/-- Witness for C7 at the concrete example payload of the spec. -/
theorem voice_channel_select_dispatch_w :
    countCmd
      (onPayload (fun _ => "t") (initState none)
        { evt := some RPCEvent.VOICE_CHANNEL_SELECT,
          data := { channel_id := some "42" } }).2
      RPCCommand.GET_CHANNEL = 1 ∧
    (applyEffects {}
      (onPayload (fun _ => "t") (initState none)
        { evt := some RPCEvent.VOICE_CHANNEL_SELECT,
          data := { channel_id := some "42" } }).2).currentChannel = some "42" := by
  have h := voice_channel_select_dispatch (fun _ => "t") (initState none)
    { evt := some RPCEvent.VOICE_CHANNEL_SELECT,
      data := { channel_id := some "42" } } rfl rfl
  exact ⟨(h.1 rfl).2.2.1, (h.1 rfl).2.2.2 {}⟩

theorem countLog_append (a b : List Effect) :
    countLog (a ++ b) = countLog a + countLog b := by
  simp [countLog, List.countP_append]

theorem countLog_map_sent (l : List DiscordPayload) :
    countLog (l.map Effect.sent) = 0 := by
  induction l with
  | nil => rfl
  | cons q qs ih => simp [countLog]

theorem countLog_readyBranch (p : InPayload) (st : ManagerState) :
    countLog (readyBranch p st).1 = 0 := by
  unfold readyBranch
  split <;> (try split) <;> (try split) <;>
    simp [countLog, authenticate, login, send, genNonce]

theorem countLog_authorizeBranch (exchange : Option String → String)
    (p : InPayload) (st : ManagerState) :
    countLog (authorizeBranch exchange p st).1 = 0 := by
  unfold authorizeBranch
  split <;> simp [countLog, login, send, genNonce]

theorem countLog_selectedVoiceChannelBranch (p : InPayload) (st : ManagerState) :
    countLog (selectedVoiceChannelBranch p st).1 = 0 := by
  unfold selectedVoiceChannelBranch
  split <;> simp [countLog_append, countLog_map_sent, countLog]

theorem countLog_authenticateBranch (p : InPayload) (st : ManagerState) :
    countLog (authenticateBranch p st).1 = 0 := by
  unfold authenticateBranch
  split <;> simp [countLog, requestUserChannel, send, genNonce]

theorem countLog_speakingBranch (p : InPayload) (st : ManagerState) :
    countLog (speakingBranch p st).1 = 0 := by
  unfold speakingBranch
  split <;> simp [countLog]

theorem countLog_voiceStateDeleteBranch (p : InPayload) (st : ManagerState) :
    countLog (voiceStateDeleteBranch p st).1 = 0 := by
  unfold voiceStateDeleteBranch
  split <;> simp [countLog]

theorem countLog_voiceStateCreateBranch (p : InPayload) (st : ManagerState) :
    countLog (voiceStateCreateBranch p st).1 = 0 := by
  unfold voiceStateCreateBranch
  split <;> simp [countLog]

theorem countLog_getChannelBranch (p : InPayload) (st : ManagerState) :
    countLog (getChannelBranch p st).1 = 0 := by
  unfold getChannelBranch
  split <;> simp [countLog, requestUserChannel, send, genNonce]

theorem countLog_channelSelectBranch (p : InPayload) (st : ManagerState) :
    countLog (channelSelectBranch p st).1 = 0 := by
  unfold channelSelectBranch
  split <;> (try split) <;> (try split) <;>
    simp [countLog, requestUserChannel, send, genNonce]

theorem countLog_logBranch (p : InPayload) (st : ManagerState) :
    countLog (logBranch p st).1 =
      if p.cmd = some RPCCommand.SUBSCRIBE ∨ p.cmd = some RPCCommand.AUTHENTICATE
      then 0 else 1 := by
  unfold logBranch
  split <;> simp_all [countLog]

/-- C5 counterexample: the payload `{ evt := READY }` is handled by the
READY dispatch branch (it sends an AUTHORIZE command) and is nevertheless
logged, so the diagnostic log is not restricted to payloads matching no
dispatch branch. -/
theorem ready_payload_also_logged :
    countLog
      (onPayload (fun _ => "t") (initState none)
        { evt := some RPCEvent.READY }).2 = 1 ∧
    countCmd
      (onPayload (fun _ => "t") (initState none)
        { evt := some RPCEvent.READY }).2 RPCCommand.AUTHORIZE = 1 ∧
    Effect.log { evt := some RPCEvent.READY } ∈
      (onPayload (fun _ => "t") (initState none)
        { evt := some RPCEvent.READY }).2 := by
  decide

/-- C5 amended: the diagnostic log is written exactly when the `cmd` of the
payload is neither SUBSCRIBE nor AUTHENTICATE, regardless of whether some
dispatch branch handled the payload; in particular payloads dispatched via
`evt` (READY, SPEAKING_START, …) or via another `cmd` (AUTHORIZE,
GET_SELECTED_VOICE_CHANNEL, GET_CHANNEL) are logged as well. -/
theorem log_iff_cmd_outside_exclusion (exchange : Option String → String)
    (st : ManagerState) (p : InPayload) :
    countLog (onPayload exchange st p).2 =
      if p.cmd = some RPCCommand.SUBSCRIBE ∨ p.cmd = some RPCCommand.AUTHENTICATE
      then 0 else 1 := by
  simp [onPayload, countLog_append, countLog_readyBranch, countLog_authorizeBranch,
    countLog_selectedVoiceChannelBranch, countLog_authenticateBranch,
    countLog_speakingBranch, countLog_voiceStateDeleteBranch,
    countLog_voiceStateCreateBranch, countLog_getChannelBranch,
    countLog_channelSelectBranch, countLog_logBranch]

/-- C9: a non-text inbound frame makes `onMessage` return immediately: the
manager state (token store included) is unchanged and no effect — no send,
no store mutation, no log — is performed. -/
theorem non_text_frames_ignored (exchange : Option String → String)
    (st : ManagerState) (m : Message) (h : m.isText = false) :
    onMessage exchange st m = (st, []) := by
  cases m <;> simp_all [onMessage, Message.isText]

/-- Witness for C9 at a concrete binary frame. -/
theorem non_text_frames_ignored_w :
    onMessage (fun _ => "t") (initState none) (Message.binary [0]) =
      (initState none, []) :=
  non_text_frames_ignored (fun _ => "t") (initState none) (Message.binary [0]) rfl

theorem readyBranch_ccid (p : InPayload) (st : ManagerState) :
    ((readyBranch p st).2).currentChannelId = st.currentChannelId := by
  unfold readyBranch
  split <;> (try split) <;> (try split) <;>
    simp [authenticate, login, send, genNonce]

theorem authorizeBranch_ccid (exchange : Option String → String)
    (p : InPayload) (st : ManagerState) :
    ((authorizeBranch exchange p st).2).currentChannelId = st.currentChannelId := by
  unfold authorizeBranch
  split <;> simp [login, send, genNonce]

theorem selectedVoiceChannelBranch_ccid (p : InPayload) (st : ManagerState) :
    ((selectedVoiceChannelBranch p st).2).currentChannelId = st.currentChannelId := by
  unfold selectedVoiceChannelBranch
  split <;> simp

theorem authenticateBranch_ccid (p : InPayload) (st : ManagerState) :
    ((authenticateBranch p st).2).currentChannelId = st.currentChannelId := by
  unfold authenticateBranch
  split <;> simp [requestUserChannel, send, genNonce]

theorem speakingBranch_ccid (p : InPayload) (st : ManagerState) :
    ((speakingBranch p st).2).currentChannelId = st.currentChannelId := by
  unfold speakingBranch
  split <;> rfl

theorem voiceStateDeleteBranch_ccid (p : InPayload) (st : ManagerState) :
    ((voiceStateDeleteBranch p st).2).currentChannelId = st.currentChannelId := by
  unfold voiceStateDeleteBranch
  split <;> rfl

theorem voiceStateCreateBranch_ccid (p : InPayload) (st : ManagerState) :
    ((voiceStateCreateBranch p st).2).currentChannelId = st.currentChannelId := by
  unfold voiceStateCreateBranch
  split <;> rfl

theorem getChannelBranch_ccid (p : InPayload) (st : ManagerState) :
    ((getChannelBranch p st).2).currentChannelId = st.currentChannelId := by
  unfold getChannelBranch
  split <;> simp [requestUserChannel, send, genNonce]

theorem channelSelectBranch_ccid (p : InPayload) (st : ManagerState) :
    ((channelSelectBranch p st).2).currentChannelId = st.currentChannelId := by
  unfold channelSelectBranch
  split <;> (try split) <;> (try split) <;>
    simp [requestUserChannel, send, genNonce]

theorem logBranch_ccid (p : InPayload) (st : ManagerState) :
    ((logBranch p st).2).currentChannelId = st.currentChannelId := by
  unfold logBranch
  split <;> rfl

theorem onPayload_currentChannelId (exchange : Option String → String)
    (st : ManagerState) (p : InPayload) :
    ((onPayload exchange st p).1).currentChannelId = st.currentChannelId := by
  simp [onPayload, readyBranch_ccid, authorizeBranch_ccid,
    selectedVoiceChannelBranch_ccid, authenticateBranch_ccid,
    speakingBranch_ccid, voiceStateDeleteBranch_ccid,
    voiceStateCreateBranch_ccid, getChannelBranch_ccid,
    channelSelectBranch_ccid, logBranch_ccid]

theorem onMessage_currentChannelId (exchange : Option String → String)
    (st : ManagerState) (m : Message) :
    ((onMessage exchange st m).1).currentChannelId = st.currentChannelId := by
  cases m <;> simp [onMessage, onPayload_currentChannelId]

theorem run_currentChannelId (exchange : Option String → String)
    (msgs : List Message) :
    ∀ st : ManagerState,
      ((run exchange st msgs).1).currentChannelId = st.currentChannelId := by
  induction msgs with
  | nil => intro st; rfl
  | cons m ms ih =>
    intro st
    simp [run, ih, onMessage_currentChannelId]

/-- C10: the `currentChannelId` field of the manager itself is never
written: it is `null` right after `init()` and is still `null` after
processing any sequence of inbound frames, for any cached-token content and
any exchange oracle; more generally every run leaves the field exactly as
it started. -/
theorem currentChannelId_never_written (exchange : Option String → String)
    (cachedToken : Option String) (msgs : List Message) :
    ((run exchange (initState cachedToken) msgs).1).currentChannelId = none ∧
    ∀ st : ManagerState,
      ((run exchange st msgs).1).currentChannelId = st.currentChannelId := by
  refine ⟨?_, run_currentChannelId exchange msgs⟩
  rw [run_currentChannelId exchange msgs (initState cachedToken)]
  rfl

/-- A nonce segment: every socket write among `effs` carries a nonce drawn
from `[lo, hi)`, and those nonces strictly increase in send order. -/
def NonceSeg (effs : List Effect) (lo hi : Nat) : Prop :=
  lo ≤ hi ∧
  (∀ q ∈ sentPayloads effs, ∃ n, q.nonce = some n ∧ lo ≤ n ∧ n < hi) ∧
  List.Pairwise (fun a b => a < b) (sentNonces effs)

theorem sentPayloads_append (a b : List Effect) :
    sentPayloads (a ++ b) = sentPayloads a ++ sentPayloads b := by
  simp [sentPayloads, List.filterMap_append]

theorem sentNonces_append (a b : List Effect) :
    sentNonces (a ++ b) = sentNonces a ++ sentNonces b := by
  simp [sentNonces, sentPayloads_append, List.filterMap_append]

theorem mem_sentNonces (n : Nat) (effs : List Effect) :
    n ∈ sentNonces effs ↔ ∃ q ∈ sentPayloads effs, q.nonce = some n := by
  simp [sentNonces, List.mem_filterMap]

theorem NonceSeg.nil (lo : Nat) : NonceSeg [] lo lo := by
  refine ⟨le_refl _, ?_, ?_⟩ <;> simp [sentPayloads, sentNonces]

theorem NonceSeg.no_sends (effs : List Effect) (lo : Nat)
    (h : sentPayloads effs = []) : NonceSeg effs lo lo := by
  refine ⟨le_refl _, ?_, ?_⟩ <;> simp [sentNonces, h]

theorem NonceSeg.single (q : DiscordPayload) (n lo hi : Nat)
    (hn : q.nonce = some n) (h1 : lo ≤ n) (h2 : n < hi) :
    NonceSeg [Effect.sent q] lo hi := by
  refine ⟨by omega, ?_, ?_⟩
  · intro r hr
    simp [sentPayloads] at hr
    subst hr
    exact ⟨n, hn, h1, h2⟩
  · simp [sentNonces, sentPayloads, hn]

theorem NonceSeg.append {a b : List Effect} {lo mid hi : Nat}
    (h1 : NonceSeg a lo mid) (h2 : NonceSeg b mid hi) :
    NonceSeg (a ++ b) lo hi := by
  obtain ⟨hlm, hb1, hp1⟩ := h1
  obtain ⟨hmh, hb2, hp2⟩ := h2
  refine ⟨le_trans hlm hmh, ?_, ?_⟩
  · intro q hq
    rw [sentPayloads_append, List.mem_append] at hq
    rcases hq with hq | hq
    · obtain ⟨n, hn, hn1, hn2⟩ := hb1 q hq
      exact ⟨n, hn, hn1, lt_of_lt_of_le hn2 hmh⟩
    · obtain ⟨n, hn, hn1, hn2⟩ := hb2 q hq
      exact ⟨n, hn, le_trans hlm hn1, hn2⟩
  · rw [sentNonces_append, List.pairwise_append]
    refine ⟨hp1, hp2, ?_⟩
    intro x hx y hy
    obtain ⟨qx, hqx, hnx⟩ := (mem_sentNonces x _).1 hx
    obtain ⟨qy, hqy, hny⟩ := (mem_sentNonces y _).1 hy
    obtain ⟨n1, hn1, _, hlt1⟩ := hb1 qx hqx
    obtain ⟨n2, hn2, hge2, _⟩ := hb2 qy hqy
    have ex : x = n1 := Option.some.inj (hnx.symm.trans hn1)
    have ey : y = n2 := Option.some.inj (hny.symm.trans hn2)
    omega

theorem nonceSeg_readyBranch (p : InPayload) (st : ManagerState) :
    NonceSeg (readyBranch p st).1 st.nonceCtr ((readyBranch p st).2).nonceCtr := by
  unfold readyBranch
  split <;> (try split) <;> (try split) <;>
    first
      | exact NonceSeg.nil _
      | exact NonceSeg.single _ st.nonceCtr _ _ rfl (le_refl _) (Nat.lt_succ_self _)

theorem nonceSeg_authorizeBranch (exchange : Option String → String)
    (p : InPayload) (st : ManagerState) :
    NonceSeg (authorizeBranch exchange p st).1 st.nonceCtr
      ((authorizeBranch exchange p st).2).nonceCtr := by
  unfold authorizeBranch
  split
  · exact
      (NonceSeg.no_sends
          [Effect.httpPost (STREAMKIT_URL ++ "/overlay/token") p.data.code,
           Effect.setToken (exchange p.data.code)] st.nonceCtr
          (by simp [sentPayloads])).append
        (NonceSeg.single _ st.nonceCtr _ _ rfl (le_refl _) (Nat.lt_succ_self _))
  · exact NonceSeg.nil _

theorem nonceSeg_channelEventsGo (cmd : String) (ch : Option String) :
    ∀ (evs : List String) (ctr : Nat),
      NonceSeg ((channelEventsGo cmd ch evs ctr).1.map Effect.sent) ctr
        (channelEventsGo cmd ch evs ctr).2 := by
  intro evs
  induction evs with
  | nil => intro ctr; exact NonceSeg.nil ctr
  | cons ev rest ih =>
    intro ctr
    have h1 :
        NonceSeg
          [Effect.sent
            { cmd := some cmd, args := some { channel_id := ch },
              evt := some ev, nonce := some (ctr + 1) }]
          ctr (ctr + 1 + 1) :=
      NonceSeg.single _ (ctr + 1) _ _ rfl (Nat.le_succ _) (Nat.lt_succ_self _)
    have h2 := ih (ctr + 1 + 1)
    exact NonceSeg.append h1 h2

theorem nonceSeg_selectedVoiceChannelBranch (p : InPayload) (st : ManagerState) :
    NonceSeg (selectedVoiceChannelBranch p st).1 st.nonceCtr
      ((selectedVoiceChannelBranch p st).2).nonceCtr := by
  unfold selectedVoiceChannelBranch
  split
  · exact
      (nonceSeg_channelEventsGo RPCCommand.SUBSCRIBE p.data.id
          SUBSCRIBABLE_EVENTS st.nonceCtr).append
        (NonceSeg.no_sends
          [Effect.setUsers p.data.voice_states,
           Effect.setCurrentChannel p.data.id] _ (by simp [sentPayloads]))
  · exact NonceSeg.nil _

theorem nonceSeg_authenticateBranch (p : InPayload) (st : ManagerState) :
    NonceSeg (authenticateBranch p st).1 st.nonceCtr
      ((authenticateBranch p st).2).nonceCtr := by
  unfold authenticateBranch
  split
  · exact
      (NonceSeg.single _ st.nonceCtr _ _ rfl (le_refl _) (Nat.lt_succ_self _)).append
        ((NonceSeg.single _ (st.nonceCtr + 1) _ _ rfl (le_refl _)
            (Nat.lt_succ_self _)).append
          (NonceSeg.no_sends [Effect.setMe p.data.user] _ (by simp [sentPayloads])))
  · exact NonceSeg.nil _

theorem nonceSeg_speakingBranch (p : InPayload) (st : ManagerState) :
    NonceSeg (speakingBranch p st).1 st.nonceCtr
      ((speakingBranch p st).2).nonceCtr := by
  unfold speakingBranch
  split
  · exact NonceSeg.no_sends _ _ (by simp [sentPayloads])
  · exact NonceSeg.nil _

theorem nonceSeg_voiceStateDeleteBranch (p : InPayload) (st : ManagerState) :
    NonceSeg (voiceStateDeleteBranch p st).1 st.nonceCtr
      ((voiceStateDeleteBranch p st).2).nonceCtr := by
  unfold voiceStateDeleteBranch
  split
  · exact NonceSeg.no_sends _ _ (by simp [sentPayloads])
  · exact NonceSeg.nil _

theorem nonceSeg_voiceStateCreateBranch (p : InPayload) (st : ManagerState) :
    NonceSeg (voiceStateCreateBranch p st).1 st.nonceCtr
      ((voiceStateCreateBranch p st).2).nonceCtr := by
  unfold voiceStateCreateBranch
  split
  · exact NonceSeg.no_sends _ _ (by simp [sentPayloads])
  · exact NonceSeg.nil _

theorem nonceSeg_getChannelBranch (p : InPayload) (st : ManagerState) :
    NonceSeg (getChannelBranch p st).1 st.nonceCtr
      ((getChannelBranch p st).2).nonceCtr := by
  unfold getChannelBranch
  split
  · exact NonceSeg.single _ st.nonceCtr _ _ rfl (le_refl _) (Nat.lt_succ_self _)
  · exact NonceSeg.nil _

theorem nonceSeg_channelSelectBranch (p : InPayload) (st : ManagerState) :
    NonceSeg (channelSelectBranch p st).1 st.nonceCtr
      ((channelSelectBranch p st).2).nonceCtr := by
  unfold channelSelectBranch
  split <;> (try split) <;> (try split)
  · exact
      (NonceSeg.single _ st.nonceCtr _ _ rfl (le_refl _) (Nat.lt_succ_self _)).append
        (NonceSeg.no_sends [Effect.setCurrentChannel _] _ (by simp [sentPayloads]))
  · exact
      (NonceSeg.single _ st.nonceCtr _ _ rfl (le_refl _) (Nat.lt_succ_self _)).append
        ((NonceSeg.no_sends [Effect.setCurrentChannel _] _
            (by simp [sentPayloads])).append
          (NonceSeg.single _ (st.nonceCtr + 1) _ _ rfl (le_refl _)
            (Nat.lt_succ_self _)))
  · exact
      (NonceSeg.single _ st.nonceCtr _ _ rfl (le_refl _) (Nat.lt_succ_self _)).append
        (NonceSeg.no_sends [Effect.setCurrentChannel none] _ (by simp [sentPayloads]))
  · exact NonceSeg.nil _

theorem nonceSeg_logBranch (p : InPayload) (st : ManagerState) :
    NonceSeg (logBranch p st).1 st.nonceCtr ((logBranch p st).2).nonceCtr := by
  unfold logBranch
  split
  · exact NonceSeg.nil _
  · exact NonceSeg.no_sends _ _ (by simp [sentPayloads])

theorem nonceSeg_onPayload (exchange : Option String → String)
    (st : ManagerState) (p : InPayload) :
    NonceSeg (onPayload exchange st p).2 st.nonceCtr
      ((onPayload exchange st p).1).nonceCtr := by
  simp only [onPayload]
  exact nonceSeg_readyBranch p st
    |>.append (nonceSeg_authorizeBranch exchange p _)
    |>.append (nonceSeg_selectedVoiceChannelBranch p _)
    |>.append (nonceSeg_authenticateBranch p _)
    |>.append (nonceSeg_speakingBranch p _)
    |>.append (nonceSeg_voiceStateDeleteBranch p _)
    |>.append (nonceSeg_voiceStateCreateBranch p _)
    |>.append (nonceSeg_getChannelBranch p _)
    |>.append (nonceSeg_channelSelectBranch p _)
    |>.append (nonceSeg_logBranch p _)

theorem nonceSeg_onMessage (exchange : Option String → String)
    (st : ManagerState) (m : Message) :
    NonceSeg (onMessage exchange st m).2 st.nonceCtr
      ((onMessage exchange st m).1).nonceCtr := by
  cases m with
  | text p => exact nonceSeg_onPayload exchange st p
  | binary d => exact NonceSeg.nil _
  | ping d => exact NonceSeg.nil _
  | pong d => exact NonceSeg.nil _
  | close => exact NonceSeg.nil _

theorem nonceSeg_run (exchange : Option String → String) :
    ∀ (msgs : List Message) (st : ManagerState),
      NonceSeg (run exchange st msgs).2 st.nonceCtr
        ((run exchange st msgs).1).nonceCtr := by
  intro msgs
  induction msgs with
  | nil => intro st; exact NonceSeg.nil _
  | cons m ms ih =>
    intro st
    exact (nonceSeg_onMessage exchange st m).append (ih _)

/-- C8: over any sequence of inbound frames in one session (the nonce
generator modelled as a source of pairwise-distinct fresh values), every
serialized outbound payload — the per-event subscribe commands of
`channelEvents` included — carries a nonce attached at send time, and the
nonces of the sent payloads are pairwise distinct in send order. -/
theorem outbound_nonces_distinct (exchange : Option String → String)
    (st : ManagerState) (msgs : List Message) :
    (∀ q ∈ sentPayloads (run exchange st msgs).2, ∃ n, q.nonce = some n) ∧
    List.Pairwise (fun a b => a ≠ b) (sentNonces (run exchange st msgs).2) := by
  obtain ⟨-, hb, hp⟩ := nonceSeg_run exchange msgs st
  constructor
  · intro q hq
    obtain ⟨n, hn, -, -⟩ := hb q hq
    exact ⟨n, hn⟩
  · exact hp.imp Nat.ne_of_lt

end Overlayed
